import Mathlib

/-!
Verification development for the lidarrscripts repository: a shallow
embedding of the three Python scripts (spotify_playlist_checker.py,
import_nfo_albums.py, mb_lidarr_import.py) together with theorems about
the reconciliation, rate-limiting and batch-accounting logic.
External effects (HTTP responses, XML parsing outcomes, regex search
results on file contents) are modelled as explicit input data; the
control flow over them is translated directly from the source.
-/

/-! ## Python string primitives

Executable models of the Python string operations the scripts use:
substring containment (the in operator), suffix test (str.endswith),
and whitespace stripping (str.strip). -/

/-- Model of Python str.strip with no argument: drop whitespace from both
ends. -/
def pyStrip (s : String) : String :=
  String.mk (((s.data.dropWhile Char.isWhitespace).reverse.dropWhile
    Char.isWhitespace).reverse)

/-- Boolean list-prefix test on characters. -/
def isPrefixOfChars : List Char → List Char → Bool
  | [], _ => true
  | _ :: _, [] => false
  | a :: as, b :: bs => a == b && isPrefixOfChars as bs

/-- Boolean substring containment on character lists. -/
def containsChars (nd : List Char) : List Char → Bool
  | [] => nd.isEmpty
  | h :: t => isPrefixOfChars nd (h :: t) || containsChars nd t

/-- Boolean list-suffix test on characters, via reversal. -/
def isSuffixOfChars (suf l : List Char) : Bool :=
  isPrefixOfChars suf.reverse l.reverse

/-- Model of the Python in operator on strings. -/
def pyIn (needle hay : String) : Bool :=
  containsChars needle.data hay.data

/-- Model of Python str.endswith. -/
def pyEndsWith (s suf : String) : Bool :=
  isSuffixOfChars suf.data s.data

/-- Model of re.search with re.IGNORECASE for a pattern that is a literal
string (every dot in the SERVICE_PATTERNS regexes is escaped, so each
pattern matches exactly as a case-insensitive substring). -/
def ciSearch (pat hay : String) : Bool :=
  containsChars (pat.data.map Char.toLower) (hay.data.map Char.toLower)

theorem isPrefixOfChars_append (xs ys : List Char) :
    isPrefixOfChars xs (xs ++ ys) = true := by
  induction xs with
  | nil => rfl
  | cons a as ih => simp [isPrefixOfChars, ih]

theorem isSuffixOfChars_append (xs ys : List Char) :
    isSuffixOfChars ys (xs ++ ys) = true := by
  unfold isSuffixOfChars
  rw [List.reverse_append]
  exact isPrefixOfChars_append ys.reverse xs.reverse

theorem pyEndsWith_append (a b : String) : pyEndsWith (a ++ b) b = true := by
  unfold pyEndsWith
  rw [String.data_append]
  exact isSuffixOfChars_append a.data b.data

/-! ## spotify_playlist_checker.py — MusicBrainzClient rate limiting

The client keeps a last_request_time field. Before each request,
_rate_limit computes the elapsed time since it, sleeps out the remainder
of the interval, then stores time.time() into the field; the caller then
issues the HTTP request. Time is modelled by rationals under an
idealized clock (sleeping d advances the clock by exactly d, and the
code between clock reads takes zero time). -/

/-- MB_RATE_LIMIT = 1.0 seconds between requests. -/
def MB_RATE_LIMIT : ℚ := 1

/-- The clock value recorded by _rate_limit when it is entered at time
now with stored last request time last: if less than the interval has
elapsed, the sleep ends exactly at last + MB_RATE_LIMIT; otherwise no
sleep happens and the recorded time is now. -/
def rateLimitIssue (last now : ℚ) : ℚ :=
  if now - last < MB_RATE_LIMIT then last + MB_RATE_LIMIT else now

/-- Recorded request timestamps across a sequence of calls: each call
arrives at its listed clock time, runs _rate_limit against the stored
last request time, and the recorded time becomes the new stored time. -/
def issueTimes (last : ℚ) : List ℚ → List ℚ
  | [] => []
  | now :: rest => rateLimitIssue last now :: issueTimes (rateLimitIssue last now) rest

theorem rateLimitIssue_ge (last now : ℚ) :
    last + MB_RATE_LIMIT ≤ rateLimitIssue last now := by
  unfold rateLimitIssue
  split
  · exact le_refl _
  · linarith [not_lt.mp (by assumption : ¬ now - last < MB_RATE_LIMIT)]

/-- C1: RateLimitedClient never records two request timestamps less than
the configured interval (1 second) apart: in the idealized clock model,
for any initial stored time and any sequence of call arrival times, every
two consecutive recorded timestamps differ by at least MB_RATE_LIMIT. -/
theorem C1_rate_limit_min_interval (last : ℚ) (arrivals : List ℚ) :
    List.Chain' (fun a b => MB_RATE_LIMIT ≤ b - a) (issueTimes last arrivals) := by
  induction arrivals generalizing last with
  | nil => simp [issueTimes]
  | cons now rest ih =>
    rw [issueTimes, List.chain'_cons']
    refine ⟨?_, ih (rateLimitIssue last now)⟩
    intro b hb
    cases rest with
    | nil => simp [issueTimes] at hb
    | cons m r =>
      simp only [issueTimes, List.head?_cons, Option.mem_def, Option.some.injEq] at hb
      subst hb
      have := rateLimitIssue_ge (rateLimitIssue last now) m
      linarith

/-! ## Event order inside a rate-limited call

search_artist_by_spotify_id first calls _rate_limit — which may sleep and
then stores time.time() into last_request_time — and only afterwards
issues the outbound HTTP request. The trace of a single call records
those steps in program order. -/

/-- Observable steps of one rate-limited client call. -/
inductive ClientEvent where
  | sleep (d : ℚ)
  | setLastRequestTime (t : ℚ)
  | issueRequest
deriving DecidableEq

/-- Event trace of _rate_limit entered at clock time now with stored
last request time last: an optional sleep for the remainder of the
interval, then the store into last_request_time. -/
def rateLimitEvents (last now : ℚ) : List ClientEvent :=
  (if now - last < MB_RATE_LIMIT
    then [ClientEvent.sleep (MB_RATE_LIMIT - (now - last))]
    else [])
  ++ [ClientEvent.setLastRequestTime (rateLimitIssue last now)]

/-- Event trace of search_artist_by_spotify_id: the _rate_limit steps
followed by issuing the HTTP GET. get_artist_urls has the same shape. -/
def searchArtistEvents (last now : ℚ) : List ClientEvent :=
  rateLimitEvents last now ++ [ClientEvent.issueRequest]

/-- The property claimed of the client: every store into
last_request_time occurs strictly after the request has been issued. -/
def updatedOnlyAfterIssue (tr : List ClientEvent) : Prop :=
  ∀ i j t, tr.get? i = some (ClientEvent.setLastRequestTime t) →
    tr.get? j = some ClientEvent.issueRequest → j < i

/-- C4 counterexample: in the call entered at time 5 with stored last
request time 0, the trace is [setLastRequestTime 5, issueRequest] — the
timestamp is stored at index 0, before the request is issued at index 1,
so the claimed store-after-issue ordering fails. -/
theorem C4_counterexample_timestamp_before_issue :
    ¬ updatedOnlyAfterIssue (searchArtistEvents 0 5) := by
  intro h
  have h5 : searchArtistEvents 0 5
      = [ClientEvent.setLastRequestTime 5, ClientEvent.issueRequest] := by
    unfold searchArtistEvents rateLimitEvents rateLimitIssue MB_RATE_LIMIT
    norm_num
  have := h 0 1 5 (by rw [h5]; rfl) (by rw [h5]; rfl)
  omega

/-- C4 amended: in every call through the rate-limited client, the stored
last-request timestamp is updated immediately before the outbound request
is issued, never after it: the interval is measured from issue start to
issue start, so a slow response does not delay the start of the next
request. -/
theorem C4_timestamp_updated_before_issue (last now : ℚ) :
    ∃ n t, (searchArtistEvents last now).get? n
        = some (ClientEvent.setLastRequestTime t)
      ∧ (searchArtistEvents last now).get? (n + 1)
        = some ClientEvent.issueRequest := by
  unfold searchArtistEvents rateLimitEvents
  by_cases h : now - last < MB_RATE_LIMIT
  · exact ⟨1, rateLimitIssue last now, by simp [h], by simp [h]⟩
  · exact ⟨0, rateLimitIssue last now, by simp [h], by simp [h]⟩

/-! ## import_nfo_albums.py — configuration and Python truthiness

Module-level configuration constants, and the Python truthiness tests the
script applies to optionally-present JSON fields: dict.get returns None
for a missing key, and `if not x` treats None, 0, False and the empty
string as falsy. -/

/-- QUALITY_PROFILE_ID = 1. -/
def QUALITY_PROFILE_ID : Int := 1

/-- METADATA_PROFILE_ID = 1. -/
def METADATA_PROFILE_ID : Int := 1

/-- ROOT_FOLDER_PATH = "/music". -/
def ROOT_FOLDER_PATH : String := "/music"

/-- Python truthiness of an optional integer field: None and 0 are falsy. -/
def pyTruthyInt : Option Int → Bool
  | none => false
  | some n => decide (n ≠ 0)

/-- Python truthiness of an optional string field: None and "" are falsy. -/
def pyTruthyStr : Option String → Bool
  | none => false
  | some s => !(s == "")

/-- Python truthiness of an optional boolean field: None and False are
falsy. -/
def pyTruthyBool : Option Bool → Bool
  | none => false
  | some b => b

/-! ## import_nfo_albums.py — artist sub-record backfill

add_album_to_lidarr (lines 201-209) fills the artist dictionary's
qualityProfileId, metadataProfileId, rootFolderPath and monitored entries
from the module-level defaults whenever the existing entry is absent or
falsy, using `if not artist_data.get(field)`. -/

/-- The artist sub-record fields read and written by the scripts; absent
dictionary keys are modelled as none. -/
structure ArtistData where
  qualityProfileId : Option Int := none
  metadataProfileId : Option Int := none
  rootFolderPath : Option String := none
  monitored : Option Bool := none
deriving DecidableEq

/-- The four backfill statements of add_album_to_lidarr, in program
order, each guarded by the Python truthiness of the current value. -/
def ensure_artist_fields (a : ArtistData) : ArtistData :=
  let a1 := if pyTruthyInt a.qualityProfileId then a
    else { a with qualityProfileId := some QUALITY_PROFILE_ID }
  let a2 := if pyTruthyInt a1.metadataProfileId then a1
    else { a1 with metadataProfileId := some METADATA_PROFILE_ID }
  let a3 := if pyTruthyStr a2.rootFolderPath then a2
    else { a2 with rootFolderPath := some ROOT_FOLDER_PATH }
  if pyTruthyBool a3.monitored then a3 else { a3 with monitored := some true }

/-- C2 counterexample: an artist record the remote service populated with
qualityProfileId = 0 and monitored = false has both values overwritten by
the defaults (1 and true), because the guard tests Python truthiness
rather than key presence. -/
theorem C2_counterexample_falsy_fields_overwritten :
    (ensure_artist_fields
      { qualityProfileId := some 0, metadataProfileId := some 3,
        rootFolderPath := some "/data", monitored := some false }).qualityProfileId
      = some 1
    ∧ (ensure_artist_fields
      { qualityProfileId := some 0, metadataProfileId := some 3,
        rootFolderPath := some "/data", monitored := some false }).monitored
      = some true := by
  decide

/-- C2 amended: submission backfills each of the four artist fields from
the run-wide defaults exactly when the existing value is missing or
Python-falsy (monitored absent or false, profile id absent or 0, root
folder absent or empty); a truthy populated value is kept unchanged, and
the four fields are updated independently of one another. -/
theorem C2_backfill_when_falsy (a : ArtistData) :
    (ensure_artist_fields a).qualityProfileId
      = (if pyTruthyInt a.qualityProfileId then a.qualityProfileId
          else some QUALITY_PROFILE_ID)
    ∧ (ensure_artist_fields a).metadataProfileId
      = (if pyTruthyInt a.metadataProfileId then a.metadataProfileId
          else some METADATA_PROFILE_ID)
    ∧ (ensure_artist_fields a).rootFolderPath
      = (if pyTruthyStr a.rootFolderPath then a.rootFolderPath
          else some ROOT_FOLDER_PATH)
    ∧ (ensure_artist_fields a).monitored
      = (if pyTruthyBool a.monitored then a.monitored else some true) := by
  obtain ⟨q, m, r, mon⟩ := a
  simp only [ensure_artist_fields]
  split_ifs <;> simp_all

/-! ## import_nfo_albums.py — search result matching

add_album_to_lidarr queries /api/v1/search with term lidarr:<mb_id> and
scans the returned list (lines 164-183): a result either nests the album
under an album key with a sibling artist key, or is the album object
itself; the first result whose foreignAlbumId (defaulting to "") equals
the target id or ends with it is taken. -/

/-- An album object from the search response, with the fields the script
reads; absent keys are none. -/
structure AlbumData where
  foreignAlbumId : Option String := none
  title : Option String := none
  artist : Option ArtistData := none
deriving DecidableEq

/-- One entry of the search response: either an album nested under an
album key (with an optional sibling artist key), or a bare album object. -/
inductive SearchResult where
  | nested (album : AlbumData) (artist : Option ArtistData)
  | flat (album : AlbumData)
deriving DecidableEq

/-- current_album of the loop body: the nested album if the album key is
present, otherwise the result itself. -/
def currentAlbum : SearchResult → AlbumData
  | SearchResult.nested a _ => a
  | SearchResult.flat a => a

/-- current_artist of the loop body: the artist key of the wrapper, or of
the bare album object. -/
def currentArtist : SearchResult → Option ArtistData
  | SearchResult.nested _ art => art
  | SearchResult.flat a => a.artist

/-- The match test of the loop: foreign_id == mb_id or
foreign_id.endswith(mb_id), with foreign_id defaulting to "". -/
def albumIdMatches (mb_id : String) (r : SearchResult) : Bool :=
  let fid := (currentAlbum r).foreignAlbumId.getD ""
  fid == mb_id || pyEndsWith fid mb_id

/-- The search-result scan of add_album_to_lidarr: return the album and
artist data of the first matching result, or none. -/
def findMatchingAlbum (mb_id : String) :
    List SearchResult → Option (AlbumData × Option ArtistData)
  | [] => none
  | r :: rs =>
    if albumIdMatches mb_id r then some (currentAlbum r, currentArtist r)
    else findMatchingAlbum mb_id rs

/-- C3 counterexample: for the namespace-qualified input "lidarr:abc", a
search result whose foreign album id "abc" is a suffix of that input is
NOT matched — the scan returns none — although the claim says it is
matched identically to an exact match. -/
theorem C3_counterexample_suffix_of_input_not_matched :
    pyEndsWith "lidarr:abc" "abc" = true
    ∧ findMatchingAlbum "lidarr:abc"
        [SearchResult.flat
          { foreignAlbumId := some "abc", title := none, artist := none }]
      = none := by
  decide

/-- C3 amended: the matching direction is the reverse of the claim: a
search result is matched when its foreign album id equals the input or
has the INPUT as a suffix (tolerating a namespace-qualified RESULT id
such as prefix ++ input), matched identically to an exact match; the scan
returns the album and artist data of the first matching result in result
order. -/
theorem C3_result_id_suffix_matching (mb_id ns : String) (rs : List SearchResult) :
    findMatchingAlbum mb_id rs
      = (rs.find? (albumIdMatches mb_id)).map (fun r => (currentAlbum r, currentArtist r))
    ∧ albumIdMatches mb_id
        (SearchResult.flat
          { foreignAlbumId := some (ns ++ mb_id), title := none, artist := none })
      = true
    ∧ albumIdMatches mb_id
        (SearchResult.flat
          { foreignAlbumId := some mb_id, title := none, artist := none })
      = true := by
  refine ⟨?_, ?_, ?_⟩
  · induction rs with
    | nil => rfl
    | cons r rs ih =>
      by_cases h : albumIdMatches mb_id r
      · simp [findMatchingAlbum, h, List.find?_cons_of_pos]
      · simp [findMatchingAlbum, h, List.find?_cons_of_neg, ih]
  · simp [albumIdMatches, currentAlbum, pyEndsWith_append]
  · simp [albumIdMatches, currentAlbum]

/-! ## import_nfo_albums.py — extract_musicbrainz_id

The function first runs ET.parse on the file. On an unreadable file that
call raises an OSError, which the surrounding `except ET.ParseError`
does not catch, so the exception escapes the function. On a readable but
malformed file it raises ParseError and the function falls back to two
regex searches over the raw text (re-opening the file, any exception
there caught broadly). On a parsed tree it looks up the
musicbrainzreleasegroupid element and then the musicbrainzalbumid
element, returning text.strip() for the first one whose text is truthy.
The parse outcome, element lookups, and regex match results are
modelled as input data. -/

/-- Python exceptions distinguished by the embedding. -/
inductive PyExc where
  | oserror
  | zeroDivisionError
deriving DecidableEq

/-- Result of the two root.find lookups on a parsed tree: the outer
Option is element presence, the inner Option is the element's text
(None for an empty element). -/
structure XmlTree where
  rgText : Option (Option String) := none
  albumText : Option (Option String) := none
deriving DecidableEq

/-- Outcome of ET.parse on a readable file. -/
inductive XmlParseResult where
  | tree (t : XmlTree)
  | parseError
deriving DecidableEq

/-- An album.nfo file as the extractor observes it: whether opening it
succeeds, the ET.parse outcome, and the group(1) captures of the two
fallback regex searches over its raw text. -/
structure NfoFile where
  readable : Bool := true
  xml : XmlParseResult := XmlParseResult.parseError
  rgRegexMatch : Option String := none
  albumRegexMatch : Option String := none
deriving DecidableEq

/-- The test `mb_id is not None and mb_id.text` applied to a lookup
result, yielding the text when the element exists and its text is
truthy. -/
def elemTextTruthy : Option (Option String) → Option String
  | some (some s) => if s == "" then none else some s
  | _ => none

/-- extract_musicbrainz_id: raises (Except.error) on an unreadable file,
otherwise returns the first truthy tag text stripped, or the first
fallback regex capture, or none. -/
def extract_musicbrainz_id (f : NfoFile) : Except PyExc (Option String) :=
  if !f.readable then Except.error PyExc.oserror
  else
    match f.xml with
    | XmlParseResult.tree t =>
      match elemTextTruthy t.rgText with
      | some s => Except.ok (some (pyStrip s))
      | none =>
        match elemTextTruthy t.albumText with
        | some s => Except.ok (some (pyStrip s))
        | none => Except.ok none
    | XmlParseResult.parseError =>
      match f.rgRegexMatch with
      | some s => Except.ok (some s)
      | none =>
        match f.albumRegexMatch with
        | some s => Except.ok (some s)
        | none => Except.ok none

/-- C7 counterexample: a structurally valid file whose
musicbrainzreleasegroupid tag contains only whitespace is not treated as
missing: extraction strips the text and returns the empty string. -/
theorem C7_counterexample_whitespace_tag_yields_empty_string :
    extract_musicbrainz_id
      { readable := true,
        xml := XmlParseResult.tree { rgText := some (some "   "), albumText := none },
        rgRegexMatch := none, albumRegexMatch := none }
      = Except.ok (some "") := by
  rfl

/-- C7 amended: on a structurally valid file, a tag that is absent, has
no text, or has empty text is treated identically to a missing tag; but
a tag containing only whitespace passes the truthiness test and is
returned stripped, so extraction can return the empty string rather than
the not-found outcome. -/
theorem C7_empty_tag_as_missing_but_whitespace_returns_empty
    (alb : Option (Option String)) (r1 r2 : Option String) :
    extract_musicbrainz_id
        { readable := true,
          xml := XmlParseResult.tree { rgText := some (some ""), albumText := alb },
          rgRegexMatch := r1, albumRegexMatch := r2 }
      = extract_musicbrainz_id
        { readable := true,
          xml := XmlParseResult.tree { rgText := none, albumText := alb },
          rgRegexMatch := r1, albumRegexMatch := r2 }
    ∧ extract_musicbrainz_id
        { readable := true,
          xml := XmlParseResult.tree { rgText := some none, albumText := alb },
          rgRegexMatch := r1, albumRegexMatch := r2 }
      = extract_musicbrainz_id
        { readable := true,
          xml := XmlParseResult.tree { rgText := none, albumText := alb },
          rgRegexMatch := r1, albumRegexMatch := r2 }
    ∧ extract_musicbrainz_id
        { readable := true,
          xml := XmlParseResult.tree { rgText := some (some " "), albumText := alb },
          rgRegexMatch := r1, albumRegexMatch := r2 }
      = Except.ok (some "") := by
  exact ⟨rfl, rfl, rfl⟩

/-! ## import_nfo_albums.py — the batch loop of main

main walks the collected NFO files; per item it calls
extract_musicbrainz_id (no surrounding try), skips items without a
truthy id, otherwise calls add_album_to_lidarr and classifies its
tri-state result: True means added, None means already in Lidarr,
anything else means failed. add_album_to_lidarr catches its exceptions
internally, so its outcome is modelled as per-item input data. -/

/-- One work item of the batch: the sidecar file and the outcome
add_album_to_lidarr would report for its id (some true = added,
none = already exists, some false = failed). -/
structure WorkItem where
  file : NfoFile
  addResult : Option Bool := some false
deriving DecidableEq

/-- The summary counters accumulated by main. -/
structure RunSummary where
  added : Nat := 0
  failed : Nat := 0
  skipped : Nat := 0
  already_exists : Nat := 0
deriving DecidableEq

/-- The for-loop of main over the remaining NFO files, threading the
counters; an exception from extract_musicbrainz_id propagates and aborts
the loop because the body has no handler. -/
def importLoop : List WorkItem → RunSummary → Except PyExc RunSummary
  | [], s => Except.ok s
  | it :: rest, s =>
    match extract_musicbrainz_id it.file with
    | Except.error e => Except.error e
    | Except.ok mb_id =>
      if !pyTruthyStr mb_id then
        importLoop rest { s with skipped := s.skipped + 1 }
      else
        match it.addResult with
        | some true => importLoop rest { s with added := s.added + 1 }
        | none => importLoop rest { s with already_exists := s.already_exists + 1 }
        | some false => importLoop rest { s with failed := s.failed + 1 }

/-- main of import_nfo_albums.py, from the enumerated NFO files to the
final summary (or the uncaught exception that aborted the run). -/
def import_nfo_main (items : List WorkItem) : Except PyExc RunSummary :=
  importLoop items { added := 0, failed := 0, skipped := 0, already_exists := 0 }

/-- A readable NFO file whose tree carries a release-group id. -/
def nfoGood : NfoFile :=
  { readable := true,
    xml := XmlParseResult.tree
      { rgText := some (some "4f5de77a-82eb-3466-8af9-e75d1a43e2ce"),
        albumText := none },
    rgRegexMatch := none, albumRegexMatch := none }

/-- A readable, well-formed NFO file with no MusicBrainz tags. -/
def nfoNoId : NfoFile :=
  { readable := true,
    xml := XmlParseResult.tree { rgText := none, albumText := none },
    rgRegexMatch := none, albumRegexMatch := none }

/-- An NFO file that cannot be opened. -/
def nfoUnreadable : NfoFile :=
  { readable := false, xml := XmlParseResult.parseError,
    rgRegexMatch := none, albumRegexMatch := none }

/-- C5 counterexample: on an unreadable sidecar file, identifier
extraction raises (the OSError from ET.parse is not caught by the
except ET.ParseError clause) instead of returning not-found, and since
the batch loop of main has no handler either, the whole run aborts with
that exception: a following good item is never processed and no summary
is produced. -/
theorem C5_counterexample_unreadable_file_aborts_run :
    extract_musicbrainz_id nfoUnreadable = Except.error PyExc.oserror
    ∧ import_nfo_main
        [{ file := nfoUnreadable, addResult := some true },
         { file := nfoGood, addResult := some true }]
      = Except.error PyExc.oserror := by
  exact ⟨rfl, rfl⟩

theorem extract_readable_ok (f : NfoFile) (h : f.readable = true) :
    ∃ v, extract_musicbrainz_id f = Except.ok v := by
  cases hx : f.xml with
  | tree t =>
    cases hr : elemTextTruthy t.rgText with
    | some s =>
      exact ⟨some (pyStrip s), by simp [extract_musicbrainz_id, h, hx, hr]⟩
    | none =>
      cases ha : elemTextTruthy t.albumText with
      | some s =>
        exact ⟨some (pyStrip s), by simp [extract_musicbrainz_id, h, hx, hr, ha]⟩
      | none => exact ⟨none, by simp [extract_musicbrainz_id, h, hx, hr, ha]⟩
  | parseError =>
    cases hg : f.rgRegexMatch with
    | some s => exact ⟨some s, by simp [extract_musicbrainz_id, h, hx, hg]⟩
    | none =>
      cases ha : f.albumRegexMatch with
      | some s => exact ⟨some s, by simp [extract_musicbrainz_id, h, hx, hg, ha]⟩
      | none => exact ⟨none, by simp [extract_musicbrainz_id, h, hx, hg, ha]⟩

theorem importLoop_ok_of_readable (items : List WorkItem) :
    ∀ s : RunSummary, (∀ it ∈ items, it.file.readable = true) →
      ∃ out, importLoop items s = Except.ok out := by
  induction items with
  | nil => intro s _; exact ⟨s, rfl⟩
  | cons it rest ih =>
    intro s hr
    obtain ⟨v, hv⟩ := extract_readable_ok it.file (hr it (by simp))
    have hrest : ∀ x ∈ rest, x.file.readable = true :=
      fun x hx => hr x (by simp [hx])
    simp only [importLoop, hv]
    by_cases hp : pyTruthyStr v = true
    · simp only [hp, Bool.not_true, Bool.false_eq_true, if_false]
      cases hab : it.addResult with
      | none => exact ih _ hrest
      | some b => cases b <;> exact ih _ hrest
    · simp only [Bool.not_eq_true] at hp
      simp only [hp, Bool.not_false, if_true]
      exact ih _ hrest

/-- C5 amended: a malformed but readable sidecar file never aborts the
run — extraction on any readable file returns normally (not-found at
worst) and reconciliation outcomes are handled inside
add_album_to_lidarr, so a batch whose files are all readable always
completes with a final summary; however a file that is unreadable at the
initial parse raises an uncaught OSError out of extraction, and since
the batch loop has no handler, that single item aborts the whole run. -/
theorem C5_readable_batch_completes (items : List WorkItem)
    (h : ∀ it ∈ items, it.file.readable = true) :
    ∃ out, import_nfo_main items = Except.ok out :=
  importLoop_ok_of_readable items _ h

/-- C5 witness: a batch of one malformed-but-readable file (XML parse
fails, no regex match) completes with a summary. -/
theorem C5_readable_batch_completes_witness :
    ∃ out,
      import_nfo_main
          [{ file :=
              { readable := true, xml := XmlParseResult.parseError,
                rgRegexMatch := none, albumRegexMatch := none },
             addResult := some false }]
        = Except.ok out :=
  C5_readable_batch_completes _ (by decide)

theorem importLoop_counts (items : List WorkItem) :
    ∀ s out : RunSummary, importLoop items s = Except.ok out →
      out.added + out.already_exists + out.failed + out.skipped
        = s.added + s.already_exists + s.failed + s.skipped + items.length := by
  induction items with
  | nil =>
    intro s out h
    simp only [importLoop, Except.ok.injEq] at h
    subst h
    simp
  | cons it rest ih =>
    intro s out h
    simp only [importLoop] at h
    cases hx : extract_musicbrainz_id it.file with
    | error e => rw [hx] at h; simp at h
    | ok mb_id =>
      rw [hx] at h
      by_cases hp : pyTruthyStr mb_id = true
      · simp only [hp, Bool.not_true, Bool.false_eq_true, if_false] at h
        cases hab : it.addResult with
        | none =>
          rw [hab] at h
          have h2 := ih _ _ h
          dsimp only at h2
          simp only [List.length_cons]
          omega
        | some b =>
          rw [hab] at h
          cases b with
          | true =>
            have h2 := ih _ _ h
            dsimp only at h2
            simp only [List.length_cons]
            omega
          | false =>
            have h2 := ih _ _ h
            dsimp only at h2
            simp only [List.length_cons]
            omega
      · simp only [Bool.not_eq_true] at hp
        simp only [hp, Bool.not_false, if_true] at h
        have h2 := ih _ _ h
        dsimp only at h2
        simp only [List.length_cons]
        omega

/-- C6: whenever a run of the NFO-import batch completes, the final
counters partition the input: added + already-present + failed + skipped
equals the number of enumerated NFO files. -/
theorem C6_counters_partition (items : List WorkItem) (out : RunSummary)
    (h : import_nfo_main items = Except.ok out) :
    out.added + out.already_exists + out.failed + out.skipped = items.length := by
  have := importLoop_counts items _ _ h
  simpa using this

/-- The four-item batch used to witness C6: one added, one already
present, one failed, one without an id. -/
def c6Items : List WorkItem :=
  [{ file := nfoGood, addResult := some true },
   { file := nfoGood, addResult := none },
   { file := nfoGood, addResult := some false },
   { file := nfoNoId, addResult := some true }]

/-- C6 witness: on the concrete four-item batch, the run completes with
counters 1/1/1/1 and their sum is the item count. -/
theorem C6_counters_partition_witness :
    ({ added := 1, failed := 1, skipped := 1, already_exists := 1 } : RunSummary).added
      + ({ added := 1, failed := 1, skipped := 1, already_exists := 1 } : RunSummary).already_exists
      + ({ added := 1, failed := 1, skipped := 1, already_exists := 1 } : RunSummary).failed
      + ({ added := 1, failed := 1, skipped := 1, already_exists := 1 } : RunSummary).skipped
      = c6Items.length :=
  C6_counters_partition c6Items
    { added := 1, failed := 1, skipped := 1, already_exists := 1 } rfl

/-! ## mb_lidarr_import.py — LidarrAPI.add_artist

add_artist POSTs the artist payload and calls raise_for_status. On an
HTTPError with status 400 whose JSON body contains the text
"Artist already exists" it prints a distinct warning; on any other
HTTPError, or any other exception, it prints a generic error. In every
non-2xx case it returns False; only a 2xx response returns True. The
response is modelled as input data: str(error) of the parsed body is the
body string. -/

/-- Outcome of the POST /api/v1/artist call as requests reports it. -/
inductive PostArtistResponse where
  | success (code : Nat)
  | httpError (code : Nat) (body : String)
  | otherException
deriving DecidableEq

/-- The message add_artist prints for the outcome. -/
inductive AddArtistLog where
  | noLog
  | warnAlreadyExists
  | errorAdding
deriving DecidableEq

/-- add_artist, from the response to its returned boolean and the
message it prints. -/
def add_artist (resp : PostArtistResponse) : Bool × AddArtistLog :=
  match resp with
  | PostArtistResponse.success _ => (true, AddArtistLog.noLog)
  | PostArtistResponse.httpError code body =>
    if code == 400 && pyIn "Artist already exists" body then
      (false, AddArtistLog.warnAlreadyExists)
    else (false, AddArtistLog.errorAdding)
  | PostArtistResponse.otherException => (false, AddArtistLog.errorAdding)

/-- C8 counterexample: on the duplicate-artist conflict response (HTTP
400, body containing "Artist already exists") add_artist returns false —
exactly the value it returns for a transport failure — so the caller,
which branches only on the returned boolean, cannot tell the
already-exists outcome apart from a failure; only the printed message
differs. -/
theorem C8_counterexample_already_exists_returns_false :
    (add_artist (PostArtistResponse.httpError 400 "Artist already exists")).fst
      = (add_artist PostArtistResponse.otherException).fst
    ∧ (add_artist (PostArtistResponse.httpError 400 "Artist already exists")).fst
      = false
    ∧ (add_artist (PostArtistResponse.httpError 400 "Artist already exists")).snd
      = AddArtistLog.warnAlreadyExists := by
  exact ⟨rfl, rfl, rfl⟩

/-- C8 amended: the duplicate-artist conflict pattern (HTTP 400 with a
body containing "Artist already exists") is detected and logged with a
distinct non-fatal message, but add_artist returns false for it — the
same value as for every failure — so callers cannot distinguish the two
outcomes from the return value; the caller counts both as skipped. -/
theorem C8_already_exists_detected_but_not_distinct (body : String)
    (h : pyIn "Artist already exists" body = true) :
    add_artist (PostArtistResponse.httpError 400 body)
      = (false, AddArtistLog.warnAlreadyExists)
    ∧ add_artist PostArtistResponse.otherException
      = (false, AddArtistLog.errorAdding) := by
  refine ⟨?_, rfl⟩
  simp [add_artist, h]

/-- C8 witness: the amended theorem applied to the literal conflict
body. -/
theorem C8_already_exists_detected_witness :
    add_artist (PostArtistResponse.httpError 400 "error: Artist already exists somewhere")
      = (false, AddArtistLog.warnAlreadyExists)
    ∧ add_artist PostArtistResponse.otherException
      = (false, AddArtistLog.errorAdding) :=
  C8_already_exists_detected_but_not_distinct
    "error: Artist already exists somewhere" (by decide)

/-! ## spotify_playlist_checker.py — check_streaming_services

For each relation whose type is "streaming" and which carries a url key,
the function tests relation["url"].get("resource","") against the three
SERVICE_PATTERNS regexes case-insensitively and sets the corresponding
flag to True; flags start False and are never reset, so each platform's
final flag is the OR over all relations. -/

/-- The url sub-object of a relation. -/
structure UrlObject where
  resource : Option String := none
deriving DecidableEq

/-- One MusicBrainz relation object with the fields the script reads;
absent dictionary keys are none. -/
structure MbRelation where
  type : Option String := none
  url : Option UrlObject := none
deriving DecidableEq

/-- The per-service presence flags, initialised all False. -/
structure ServiceFlags where
  spotify : Bool := false
  tidal : Bool := false
  deezer : Bool := false
deriving DecidableEq

/-- The loop body of check_streaming_services for one relation: guarded
by the streaming type and the presence of the url key, each service flag
is set when its pattern matches the resource (defaulting to ""). -/
def css_step (services : ServiceFlags) (rel : MbRelation) : ServiceFlags :=
  if rel.type == some "streaming" && rel.url.isSome then
    let u := ((rel.url.getD { resource := none }).resource).getD ""
    { spotify := services.spotify || ciSearch "open.spotify.com/artist/" u,
      tidal := services.tidal || ciSearch "tidal.com/artist/" u,
      deezer := services.deezer || ciSearch "deezer.com/artist/" u }
  else services

/-- check_streaming_services: fold the loop body over the relation list
starting from all-False flags. -/
def check_streaming_services (relations : List MbRelation) : ServiceFlags :=
  relations.foldl css_step { spotify := false, tidal := false, deezer := false }

/-- Whether one relation contributes presence for the pattern: type
"streaming", url key present, and a case-insensitive match of the
pattern in the resource. -/
def relationServiceHit (pat : String) (rel : MbRelation) : Bool :=
  (rel.type == some "streaming" && rel.url.isSome)
    && ciSearch pat (((rel.url.getD { resource := none }).resource).getD "")

theorem css_foldl (rels : List MbRelation) :
    ∀ acc : ServiceFlags,
      List.foldl css_step acc rels
        = { spotify := acc.spotify || rels.any (relationServiceHit "open.spotify.com/artist/"),
            tidal := acc.tidal || rels.any (relationServiceHit "tidal.com/artist/"),
            deezer := acc.deezer || rels.any (relationServiceHit "deezer.com/artist/") } := by
  induction rels with
  | nil => intro acc; simp
  | cons r rs ih =>
    intro acc
    rw [List.foldl_cons, ih]
    by_cases hc : (r.type == some "streaming" && r.url.isSome) = true
    · simp [css_step, relationServiceHit, hc, Bool.or_assoc]
    · simp [css_step, relationServiceHit, hc]

/-- A streaming relation whose resource matches the Spotify pattern. -/
def spotifyStreamRel : MbRelation :=
  { type := some "streaming",
    url := some { resource := some "https://open.spotify.com/artist/0TnOYISbd1XYRBk9myaseg" } }

/-- A streaming relation whose resource matches none of the configured
patterns. -/
def unknownStreamRel : MbRelation :=
  { type := some "streaming",
    url := some { resource := some "https://music.example.com/artist/123" } }

/-- C9: each platform flag of the presence report is True exactly when
some relation of type "streaming" carries a url whose resource matches
that platform's fixed pattern case-insensitively — presence is boolean OR
across all relations; and on an artist with two streaming relations, one
matching the Spotify pattern and one matching no configured pattern, the
report is spotify = true, tidal = false, deezer = false. -/
theorem C9_presence_is_or_across_relations :
    (∀ relations : List MbRelation,
      (check_streaming_services relations).spotify
        = relations.any (relationServiceHit "open.spotify.com/artist/")
      ∧ (check_streaming_services relations).tidal
        = relations.any (relationServiceHit "tidal.com/artist/")
      ∧ (check_streaming_services relations).deezer
        = relations.any (relationServiceHit "deezer.com/artist/"))
    ∧ check_streaming_services [spotifyStreamRel, unknownStreamRel]
      = { spotify := true, tidal := false, deezer := false } := by
  constructor
  · intro relations
    unfold check_streaming_services
    rw [css_foldl]
    exact ⟨rfl, rfl, rfl⟩
  · decide

/-! ## spotify_playlist_checker.py — print_summary

print_summary computes the total and the coverage counts, then prints
percentages computed as count/total*100. There is no guard on total:
with an empty results list the first division raises an unhandled
ZeroDivisionError (main applies the --missing-only filter before
choosing the output, so a fully-covered playlist filtered by
--missing-only reaches print_summary with an empty list). -/

/-- One per-artist result record accumulated by main. -/
structure CheckResult where
  mb_found : Bool := false
  services : ServiceFlags := { spotify := false, tidal := false, deezer := false }
deriving DecidableEq

/-- The numbers print_summary computes and prints. -/
structure SummaryStats where
  total : Nat
  in_mb : Nat
  pct_in_mb : ℚ
  has_spotify : Nat
  pct_spotify : ℚ
  has_tidal : Nat
  pct_tidal : ℚ
  has_deezer : Nat
  pct_deezer : ℚ
  has_all : Nat
  pct_all : ℚ

/-- The computation of print_summary: the counts, and the percentage
divisions which raise ZeroDivisionError when the results list is empty. -/
def print_summary_stats (results : List CheckResult) : Except PyExc SummaryStats :=
  let total := results.length
  let in_mb := (results.filter fun r => r.mb_found).length
  let has_spotify := (results.filter fun r => r.services.spotify).length
  let has_tidal := (results.filter fun r => r.services.tidal).length
  let has_deezer := (results.filter fun r => r.services.deezer).length
  let has_all := (results.filter fun r =>
    r.services.spotify && r.services.tidal && r.services.deezer).length
  if total = 0 then Except.error PyExc.zeroDivisionError
  else Except.ok
    { total := total,
      in_mb := in_mb, pct_in_mb := (in_mb : ℚ) / (total : ℚ) * 100,
      has_spotify := has_spotify,
      pct_spotify := (has_spotify : ℚ) / (total : ℚ) * 100,
      has_tidal := has_tidal,
      pct_tidal := (has_tidal : ℚ) / (total : ℚ) * 100,
      has_deezer := has_deezer,
      pct_deezer := (has_deezer : ℚ) / (total : ℚ) * 100,
      has_all := has_all,
      pct_all := (has_all : ℚ) / (total : ℚ) * 100 }

/-- The --missing-only filter applied by main before the output step. -/
def missing_only_filter (results : List CheckResult) : List CheckResult :=
  results.filter fun r =>
    !(r.services.spotify && r.services.tidal && r.services.deezer)

/-- An artist found on all three services. -/
def fullyCoveredResult : CheckResult :=
  { mb_found := true,
    services := { spotify := true, tidal := true, deezer := true } }

/-- C10: print_summary divides by the number of results without a zero
guard: the summary computation succeeds exactly on non-empty results
lists and raises ZeroDivisionError exactly on the empty list; in
particular a single fully-covered artist filtered out by --missing-only
leaves the empty list and the summary raises instead of printing. -/
theorem C10_summary_division_by_zero_on_empty :
    (∀ results : List CheckResult,
      print_summary_stats results = Except.error PyExc.zeroDivisionError
        ↔ results = [])
    ∧ (∀ results : List CheckResult,
      (∃ s, print_summary_stats results = Except.ok s) ↔ results ≠ [])
    ∧ print_summary_stats (missing_only_filter [fullyCoveredResult])
      = Except.error PyExc.zeroDivisionError := by
  refine ⟨?_, ?_, rfl⟩
  · intro results
    cases results with
    | nil => simp [print_summary_stats]
    | cons r rs => simp [print_summary_stats]
  · intro results
    cases results with
    | nil => simp [print_summary_stats]
    | cons r rs => simp [print_summary_stats]
